import Mathlib

/-!
Shallow embedding of the aggro-db database lifecycle and query-execution
core: the `DatabaseManager` connection manager, the `POST /query` route,
the `POST /databases/upload` route, `DatabaseMetadataModel.create`, and
`AppDatabase.setPreference`, together with theorems checking the spec's
claims about them.
-/

/-- A JavaScript value thrown by the engine or the runtime: either an
`Error` instance carrying a `message` string, or some non-`Error` value. -/
structure JsError where
  isErrorInstance : Bool
  message : String
deriving DecidableEq, Repr

/-- A result row, as a list of column-name / value pairs. -/
def Row : Type := List (String × String)

instance : DecidableEq Row := by
  unfold Row
  infer_instance

/-- What the SQLite engine itself produces for one executed statement:
the returned rows, the change count, and the last inserted row id.
The `@databases/sqlite` pool's `query` call exposes only `rows` to the
calling code. -/
structure EngineResult where
  rows : List Row
  changes : Nat
  lastInsertRowid : Nat
deriving DecidableEq

/-- The in-memory filesystem view: pairs of path and byte size. -/
def FS : Type := List (String × Nat)

instance : DecidableEq FS := by
  unfold FS
  infer_instance

def existsSync (fs : FS) (p : String) : Bool :=
  fs.any (fun e => e.1 == p)

def unlink (fs : FS) (p : String) : FS :=
  fs.filter (fun e => e.1 != p)

def writeFile (fs : FS) (p : String) (size : Nat) : FS :=
  (p, size) :: unlink fs p

def statSyncSize (fs : FS) (p : String) : Option Nat :=
  (fs.find? (fun e => e.1 == p)).map (fun e => e.2)

/-- The `DatabaseInfo` interface of `DatabaseManager`. -/
structure DatabaseInfo where
  path : String
  name : String
  size : Nat
  tables : List String
  lastAccessed : Nat
deriving DecidableEq, Repr

/-- The mutable fields of the `DatabaseManager` singleton: the connection
pool handle (identified by a numeric id) and the cached info. -/
structure ManagerState where
  currentDb : Option Nat
  currentDbInfo : Option DatabaseInfo
deriving DecidableEq, Repr

/-- The state of the freshly constructed `DatabaseManager` singleton. -/
def initialManager : ManagerState := ⟨none, none⟩

/-- Observable connection-pool lifecycle events, used to express the
ordering of dispose and open inside `loadDatabase`. -/
inductive ConnEvent where
  | disposed (conn : Nat)
  | opened (conn : Nat)
deriving DecidableEq, Repr

/-- `DatabaseManager.closeCurrentDatabase`: disposes the pool and nulls
both fields when a connection is open, otherwise does nothing. -/
def closeCurrentDatabase (st : ManagerState) : ManagerState × List ConnEvent :=
  match st.currentDb with
  | some c => (⟨none, none⟩, [ConnEvent.disposed c])
  | none => (st, [])

/-- The error `new Error('No database currently loaded')`, which the spec
names `NoConnectionError`. -/
def noConnectionError : JsError := ⟨true, "No database currently loaded"⟩

/-- `DatabaseManager.getCurrentDatabaseInfo`: throws when no info is
cached. -/
def getCurrentDatabaseInfo (st : ManagerState) : Except JsError DatabaseInfo :=
  match st.currentDbInfo with
  | none => Except.error noConnectionError
  | some i => Except.ok i

/-- `DatabaseManager.isConnected`. -/
def isConnected (st : ManagerState) : Bool :=
  st.currentDb.isSome

deriving instance DecidableEq for Except

/-- The outcome of one `loadDatabase` call: the resulting manager state,
the resulting filesystem, the pool lifecycle events in order, and the
returned info or re-raised error. -/
structure LoadResult where
  state : ManagerState
  fs : FS
  events : List ConnEvent
  result : Except JsError DatabaseInfo
deriving DecidableEq

/-- `DatabaseManager.loadDatabase filePath originalName`.  The fresh pool
handle is `newConn`; `tablesResult` is the outcome of the
`SELECT name FROM sqlite_master ...` query against the newly opened file
(an error when the file cannot be read as a database); `now` is the clock
reading used for `lastAccessed`.  Per the source: it first awaits
`closeCurrentDatabase`, then assigns `currentDb`, queries the table list,
calls `statSync`, and fills `currentDbInfo`; the catch block unlinks the
file when it exists and re-raises, without resetting `currentDb`. -/
def loadDatabase (st : ManagerState) (fs : FS) (filePath originalName : String)
    (newConn : Nat) (tablesResult : Except JsError (List String)) (now : Nat) :
    LoadResult :=
  let closed := closeCurrentDatabase st
  let st1 := closed.1
  let evs := closed.2 ++ [ConnEvent.opened newConn]
  let st2 : ManagerState := { st1 with currentDb := some newConn }
  match tablesResult with
  | Except.error e =>
      let fs' := if existsSync fs filePath then unlink fs filePath else fs
      ⟨st2, fs', evs, Except.error e⟩
  | Except.ok tables =>
      match statSyncSize fs filePath with
      | none =>
          let e : JsError := ⟨true, "ENOENT: no such file or directory"⟩
          let fs' := if existsSync fs filePath then unlink fs filePath else fs
          ⟨st2, fs', evs, Except.error e⟩
      | some size =>
          let info : DatabaseInfo := ⟨filePath, originalName, size, tables, now⟩
          ⟨{ currentDb := some newConn, currentDbInfo := some info }, fs, evs,
            Except.ok info⟩

/-- JavaScript whitespace as removed by `String.prototype.trim`
(restricted to the ASCII white-space characters). -/
def jsIsSpace (c : Char) : Bool :=
  c == ' ' || c == '\t' || c == '\n' || c == '\r' || c == '\x0b' || c == '\x0c'

/-- The JavaScript call `s.trim()`, over the character list. -/
def jsTrim (l : List Char) : List Char :=
  ((l.dropWhile jsIsSpace).reverse.dropWhile jsIsSpace).reverse

/-- The JavaScript call `s.toLowerCase()`, over the character list
(ASCII case mapping). -/
def jsToLowerCase (l : List Char) : List Char :=
  l.map Char.toLower

/-- The classification test `sqlQuery.trim().toLowerCase().startsWith('select')`
used by `DatabaseManager.executeQuery` and by the query route. -/
def isSelectClassification (sqlQuery : String) : Bool :=
  "select".toList.isPrefixOf (jsToLowerCase (jsTrim sqlQuery.data))

/-- The value returned by `DatabaseManager.executeQuery`: for a select
classification the raw row array, otherwise the object
`\x7b changes: result \x7d` whose single `changes` property holds the raw row
array; no `lastInsertRowid` property is ever set. -/
inductive ExecValue where
  | selectRows (rows : List Row)
  | changesObj (changes : List Row)
deriving DecidableEq

/-- The JavaScript property access `results.changes` on an `ExecValue`:
`undefined` (here `none`) when `results` is the plain row array. -/
def execChanges : ExecValue → Option (List Row)
  | ExecValue.selectRows _ => none
  | ExecValue.changesObj rs => some rs

/-- The JavaScript property access `results.lastInsertRowid` on an
`ExecValue`: the property is never set by `executeQuery`, so it is always
`undefined` (here `none`). -/
def execLastInsertRowid : ExecValue → Option Nat
  | _ => none

/-- `DatabaseManager.executeQuery sqlQuery`, with the engine's behaviour on
this statement supplied as `engine`.  Throws `noConnectionError` when no
pool is held; otherwise runs the statement and wraps the row array
according to the classification. -/
def executeQuery (st : ManagerState) (sqlQuery : String)
    (engine : Except JsError EngineResult) : Except JsError ExecValue :=
  match st.currentDb with
  | none => Except.error noConnectionError
  | some _ =>
      match engine with
      | Except.error e => Except.error e
      | Except.ok r =>
          if isSelectClassification sqlQuery then Except.ok (ExecValue.selectRows r.rows)
          else Except.ok (ExecValue.changesObj r.rows)

/-- The message string the route handlers compute from a caught value:
`error instanceof Error ? error.message : 'Unknown error'`. -/
def jsErrorMessage (e : JsError) : String :=
  if e.isErrorInstance then e.message else "Unknown error"

/-- One `query_history` row as assembled by the query route (the fields it
fills on both outcome paths). -/
structure QueryHistoryEntry where
  query : String
  database_name : String
  database_path : String
  execution_time_ms : Nat
  success : Bool
  error_message : Option String
deriving DecidableEq

/-- Modelled from the spec: `QueriesModel.addToHistory` is imported from
`../db/models`, which is not among the provided sources; section 4.4 of
the spec says `record(entry)` appends one immutable QueryHistoryEntry per
executed query, so it is modelled as appending the entry to the history
list. -/
def addToHistory (history : List QueryHistoryEntry) (e : QueryHistoryEntry) :
    List QueryHistoryEntry :=
  history ++ [e]

/-- The JSON response of `POST /query` (part of the `queryRouter`). -/
inductive QueryResponse where
  | badRequest (error : String)
  | selectResults (results : ExecValue)
  | writeResults (changes : Option (List Row)) (lastInsertId : Option Nat)
  | serverError (error : String) (details : String)
deriving DecidableEq

/-- The `POST /query` handler of the query router.  `sqlOpt` is the `sql`
field of the request body (absent when not provided); `engine` is the
engine's behaviour on that statement; `dur` is the wall-clock difference
measured by the handler around the execution.  Returns the response and
the new history list.  Per the source: it answers 400 when not connected,
and 400 when the `sql` field is absent or the empty string (the JavaScript
falsy test `if (!sql)` rejects both), records one history entry on both the success
and the failure path (using `getCurrentDatabaseInfo` for the database
name and path), and the failure path re-throws the error, which the outer
catch maps to a 500 response.  In the state where `isConnected()` is true
but no info is cached, `getCurrentDatabaseInfo()` throws inside the inner
try and again inside the catch, so nothing is recorded. -/
def runQueryRoute (st : ManagerState) (history : List QueryHistoryEntry)
    (sqlOpt : Option String) (engine : Except JsError EngineResult) (dur : Nat) :
    QueryResponse × List QueryHistoryEntry :=
  if !(isConnected st) then (QueryResponse.badRequest "No database loaded", history)
  else
    match sqlOpt with
    | none => (QueryResponse.badRequest "No SQL query provided", history)
    | some sqlQuery =>
        if sqlQuery = "" then (QueryResponse.badRequest "No SQL query provided", history)
        else
        match getCurrentDatabaseInfo st with
        | Except.error e =>
            (QueryResponse.serverError "Failed to execute query" (jsErrorMessage e),
              history)
        | Except.ok dbInfo =>
            match executeQuery st sqlQuery engine with
            | Except.ok results =>
                let entry : QueryHistoryEntry :=
                  ⟨sqlQuery, dbInfo.name, dbInfo.path, dur, true, none⟩
                let history' := addToHistory history entry
                if isSelectClassification sqlQuery then
                  (QueryResponse.selectResults results, history')
                else
                  (QueryResponse.writeResults (execChanges results)
                    (execLastInsertRowid results), history')
            | Except.error e =>
                let errorMessage := jsErrorMessage e
                let entry : QueryHistoryEntry :=
                  ⟨sqlQuery, dbInfo.name, dbInfo.path, dur, false, some errorMessage⟩
                let history' := addToHistory history entry
                (QueryResponse.serverError "Failed to execute query" (jsErrorMessage e),
                  history')

/-- One `database_metadata` row. -/
structure DatabaseMetadata where
  id : Nat
  name : String
  path : String
  size : Nat
  table_count : Nat
  last_accessed : Nat
  is_favorite : Bool
  notes : Option String
  schema_cache : Option String
  schema_updated_at : Option Nat
  created_at : Nat
deriving DecidableEq

/-- The `database_metadata` table together with the autoincrement
counter.  The `path` column carries a UNIQUE constraint. -/
structure MetaDb where
  rows : List DatabaseMetadata
  nextId : Nat
deriving DecidableEq

/-- The argument record of `DatabaseMetadataModel.create` (the fields the
caller supplies; `last_accessed` and `created_at` are filled by the
database defaults). -/
structure MetadataInput where
  name : String
  path : String
  size : Nat
  table_count : Nat
  is_favorite : Bool
  notes : Option String
  schema_cache : Option String
  schema_updated_at : Option Nat
deriving DecidableEq

/-- Whether the table already holds a row with the given path (the UNIQUE
constraint test). -/
def pathTaken (db : MetaDb) (p : String) : Bool :=
  db.rows.any (fun r => r.path == p)

/-- `DatabaseMetadataModel.create`: `BEGIN IMMEDIATE`, a plain `INSERT`
of the supplied fields, a re-select of the inserted row, `COMMIT`, and on
any failure a `ROLLBACK` and a re-throw.  Inserting a path that already
exists violates the UNIQUE constraint on `path`, so the statement fails
and the transaction is rolled back, leaving the table unchanged.  `now`
is the clock value the database uses for the default `last_accessed` and
`created_at` columns. -/
def DatabaseMetadataModel_create (db : MetaDb) (m : MetadataInput) (now : Nat) :
    MetaDb × Except JsError DatabaseMetadata :=
  if pathTaken db m.path then
    (db, Except.error ⟨true, "UNIQUE constraint failed: database_metadata.path"⟩)
  else
    let record : DatabaseMetadata :=
      ⟨db.nextId, m.name, m.path, m.size, m.table_count, now, m.is_favorite,
        m.notes, m.schema_cache, m.schema_updated_at, now⟩
    (⟨db.rows ++ [record], db.nextId + 1⟩, Except.ok record)

/-- The uploaded file as the route sees it: the original client-side name
and the byte length of the content. -/
structure UploadFile where
  name : String
  size : Nat
deriving DecidableEq

/-- The JSON response of `POST /databases/upload`. -/
inductive UploadResponse where
  | noFile
  | ok (database : DatabaseMetadata)
  | failed (details : String)
deriving DecidableEq

/-- The outcome of the upload route: the resulting metadata table, the
resulting storage filesystem, and the response. -/
structure UploadResult where
  metaDb : MetaDb
  fs : FS
  response : UploadResponse
deriving DecidableEq

/-- The storage path the upload route generates for a file:
`storage/databases` joined with the timestamp-prefixed filename. -/
def uploadStoragePath (timestamp : Nat) (name : String) : String :=
  "storage/databases/" ++ toString timestamp ++ "-" ++ name

/-- The `POST /databases/upload` handler.  `fileOpt` is the form-data
file (absent when not provided); `timestamp` is the `Date.now()` reading;
`openCount` is the outcome of opening the written file and counting its
tables (an error when the bytes are not a usable database); `now` stamps
the metadata row.  Per the source: it answers 400 when no file is given,
writes the bytes to the generated storage path, opens the written file to
count tables, and registers the metadata row via
`DatabaseMetadataModel.create`; the catch block truncates the written
file (`Bun.write(storagePath, '')` — the file is not deleted) and answers
500. -/
def uploadRoute (metaDb : MetaDb) (fs : FS) (fileOpt : Option UploadFile)
    (timestamp : Nat) (openCount : Except JsError Nat) (now : Nat) : UploadResult :=
  match fileOpt with
  | none => ⟨metaDb, fs, UploadResponse.noFile⟩
  | some file =>
      let storagePath := uploadStoragePath timestamp file.name
      let fs1 := writeFile fs storagePath file.size
      match openCount with
      | Except.error e =>
          let fs2 := writeFile fs1 storagePath 0
          ⟨metaDb, fs2, UploadResponse.failed (jsErrorMessage e)⟩
      | Except.ok tableCount =>
          let input : MetadataInput :=
            ⟨file.name, storagePath, file.size, tableCount, false,
              some ("Uploaded on " ++ toString now), none, none⟩
          let created := DatabaseMetadataModel_create metaDb input now
          match created.2 with
          | Except.error e =>
              let fs2 := writeFile fs1 storagePath 0
              ⟨created.1, fs2, UploadResponse.failed (jsErrorMessage e)⟩
          | Except.ok record => ⟨created.1, fs1, UploadResponse.ok record⟩

/-- What the frontend `DBUpload.onDrop` handler does with a dropped file:
forward it to the upload callback, or show an error toast without
uploading. -/
inductive DropAction where
  | uploadFile
  | showError (description : String)
deriving DecidableEq

/-- The `.db` filename test used by `DBUpload.onDrop`. -/
def dbUploadAccepts (name : String) : Bool :=
  ".db".toList.isSuffixOf name.toList

/-- `DBUpload.onDrop` on the first accepted file: uploads only when the
name ends in `.db`, otherwise shows an error toast and sends nothing. -/
def onDrop (fileName : Option String) : DropAction :=
  match fileName with
  | some name =>
      if dbUploadAccepts name then DropAction.uploadFile
      else DropAction.showError "Please upload a valid SQLite database file (.db)"
  | none => DropAction.showError "Please upload a valid SQLite database file (.db)"

/-- One `user_preferences` row. -/
structure PrefRow where
  id : Nat
  key : String
  value : String
  updated_at : Nat
deriving DecidableEq

/-- The `user_preferences` table together with the autoincrement counter.
The `key` column carries a UNIQUE constraint. -/
structure PrefDb where
  rows : List PrefRow
  nextId : Nat
deriving DecidableEq

/-- The in-place overwrite the `ON CONFLICT(key) DO UPDATE` clause applies
to the row whose unique `key` matches. -/
def prefUpdate (key value : String) (now : Nat) (r : PrefRow) : PrefRow :=
  if r.key == key then { r with value := value, updated_at := now } else r

/-- `AppDatabase.setPreference key value`: an
`INSERT ... ON CONFLICT(key) DO UPDATE SET value, updated_at` upsert.
When a row with the key exists, its `value` and `updated_at` are
overwritten in place; otherwise a new row is appended.  `now` is the
`CURRENT_TIMESTAMP` reading. -/
def setPreference (db : PrefDb) (key value : String) (now : Nat) : PrefDb :=
  if db.rows.any (fun r => r.key == key) then
    { db with rows := db.rows.map (prefUpdate key value now) }
  else
    { rows := db.rows ++ [⟨db.nextId, key, value, now⟩], nextId := db.nextId + 1 }

/-- A concrete cached connection summary used by concrete evaluations. -/
def infoEx : DatabaseInfo :=
  ⟨"storage/databases/1-ex.db", "ex.db", 12, ["t"], 0⟩

/-- A concrete pre-existing metadata row used by concrete evaluations. -/
def metaRowEx : DatabaseMetadata :=
  ⟨1, "old.db", "storage/databases/100-old.db", 100, 2, 0, true, some "keep",
    none, none, 0⟩

/-! ## Helper lemmas -/

theorem existsSync_unlink (fs : FS) (p : String) :
    existsSync (unlink fs p) p = false := by
  rw [existsSync, unlink, List.any_eq_false]
  intro x hx
  have hne := (List.mem_filter.mp hx).2
  simp only [bne_iff_ne, ne_eq] at hne
  simp [hne]

theorem existsSync_writeFile (fs : FS) (p : String) (size : Nat) :
    existsSync (writeFile fs p size) p = true := by
  simp [existsSync, writeFile, List.any]

theorem statSyncSize_writeFile (fs : FS) (p : String) (size : Nat) :
    statSyncSize (writeFile fs p size) p = some size := by
  simp [statSyncSize, writeFile, List.find?]

theorem prefUpdate_key (key value : String) (now : Nat) (r : PrefRow) :
    (prefUpdate key value now r).key = r.key := by
  unfold prefUpdate
  by_cases h : r.key == key <;> simp [h]

theorem countP_key_map_prefUpdate (l : List PrefRow) (k value : String) (now : Nat) :
    (l.map (prefUpdate k value now)).countP (fun r => r.key == k) =
      l.countP (fun r => r.key == k) := by
  rw [List.countP_map]
  refine List.countP_congr (fun r _ => ?_)
  simp [Function.comp, prefUpdate_key]

theorem mem_map_prefUpdate_value (l : List PrefRow) (k value : String) (now : Nat)
    (r : PrefRow) (hr : r ∈ l.map (prefUpdate k value now)) (hk : r.key = k) :
    r.value = value ∧ r.updated_at = now := by
  obtain ⟨r₀, _, rfl⟩ := List.mem_map.mp hr
  unfold prefUpdate
  by_cases h : r₀.key == k
  · simp [h]
  · rw [prefUpdate, if_neg h] at hk
    exact absurd (beq_iff_eq.mpr hk) h

/-! ## Claim theorems -/

/-- C6: classification of a SQL string inspects only the first keyword
after trimming whitespace and lowercasing: with a connection open,
`executeQuery` treats an input as a read exactly when its trimmed,
lowercased text starts with `select`, and everything else as a write;
inputs with equal trimmed, lowercased text classify identically;
"  select 1" classifies as a read and "insert into t values (1)" as a
write. -/
theorem executeQuery_classification (st : ManagerState) (c : Nat)
    (h : st.currentDb = some c) (s : String) (eng : EngineResult) :
    executeQuery st s (Except.ok eng) =
      Except.ok (if "select".toList.isPrefixOf (jsToLowerCase (jsTrim s.data))
        then ExecValue.selectRows eng.rows else ExecValue.changesObj eng.rows) ∧
    (∀ t : String, jsToLowerCase (jsTrim s.data) = jsToLowerCase (jsTrim t.data) →
      isSelectClassification s = isSelectClassification t) ∧
    isSelectClassification "  select 1" = true ∧
    isSelectClassification "insert into t values (1)" = false := by
  refine ⟨?_, ?_, by decide, by decide⟩
  · simp only [executeQuery, h, isSelectClassification]
    split <;> rfl
  · intro t ht
    simp [isSelectClassification, ht]

/-- Witness for C6 at a concrete open state and concrete inputs. -/
theorem executeQuery_classification_witness :
    (executeQuery ⟨some 1, none⟩ "  select 1"
        (Except.ok (⟨[], 0, 0⟩ : EngineResult)) =
      Except.ok (if "select".toList.isPrefixOf (jsToLowerCase (jsTrim "  select 1".data))
        then ExecValue.selectRows [] else ExecValue.changesObj [])) ∧
    isSelectClassification "  select 1" = isSelectClassification "  SeLeCt 1" ∧
    isSelectClassification "  select 1" = true ∧
    isSelectClassification "insert into t values (1)" = false :=
  have h := executeQuery_classification ⟨some 1, none⟩ 1 rfl "  select 1"
    (⟨[], 0, 0⟩ : EngineResult)
  ⟨h.1, h.2.1 "  SeLeCt 1" (by decide), h.2.2.1, h.2.2.2⟩

/-- C7: with nothing open (never opened, or after close), `currentSummary`
(`getCurrentDatabaseInfo`) fails with the no-connection error rather than
returning a value, and `executeQuery` likewise fails with the
no-connection error when no connection is held.  The linking hypothesis
(a cached summary implies a held handle) holds in every reachable state. -/
theorem noConnection_failures (st : ManagerState)
    (hlink : st.currentDbInfo.isSome → st.currentDb.isSome)
    (s : String) (engine : Except JsError EngineResult) :
    getCurrentDatabaseInfo initialManager = Except.error noConnectionError ∧
    executeQuery initialManager s engine = Except.error noConnectionError ∧
    getCurrentDatabaseInfo (closeCurrentDatabase st).1 =
      Except.error noConnectionError ∧
    (∀ st' : ManagerState, st'.currentDb = none →
      executeQuery st' s engine = Except.error noConnectionError) := by
  refine ⟨rfl, rfl, ?_, ?_⟩
  · rcases hdb : st.currentDb with _ | c
    · rcases hinfo : st.currentDbInfo with _ | i
      · simp [closeCurrentDatabase, hdb, getCurrentDatabaseInfo, hinfo]
      · exfalso
        have := hlink (by simp [hinfo])
        simp [hdb] at this
    · simp [closeCurrentDatabase, hdb, getCurrentDatabaseInfo]
  · intro st' h
    simp [executeQuery, h]

/-- Witness for C7: a concrete open state that gets closed, the initial
state, and a concrete query attempt without a held handle. -/
theorem noConnection_failures_witness :
    getCurrentDatabaseInfo initialManager = Except.error noConnectionError ∧
    executeQuery initialManager "select 1"
      (Except.ok (⟨[], 0, 0⟩ : EngineResult)) = Except.error noConnectionError ∧
    getCurrentDatabaseInfo (closeCurrentDatabase ⟨some 2, some infoEx⟩).1 =
      Except.error noConnectionError ∧
    executeQuery ⟨none, none⟩ "select 1"
      (Except.ok (⟨[], 0, 0⟩ : EngineResult)) = Except.error noConnectionError :=
  have h := noConnection_failures ⟨some 2, some infoEx⟩ (fun _ => rfl) "select 1"
    (Except.ok (⟨[], 0, 0⟩ : EngineResult))
  ⟨h.1, h.2.1, h.2.2.1, h.2.2.2 ⟨none, none⟩ rfl⟩

/-- C2: opening a data file while a connection is already open disposes
the existing pool before the new pool is opened (the event list), the
resulting state holds exactly the new handle, and on success
`currentSummary` reflects only the newly opened file. -/
theorem open_replaces_existing_connection (st : ManagerState) (c : Nat)
    (h : st.currentDb = some c) (fs : FS) (filePath originalName : String)
    (newConn : Nat) (tablesResult : Except JsError (List String)) (now : Nat) :
    (loadDatabase st fs filePath originalName newConn tablesResult now).events =
      [ConnEvent.disposed c, ConnEvent.opened newConn] ∧
    (loadDatabase st fs filePath originalName newConn tablesResult now).state.currentDb =
      some newConn ∧
    (∀ info,
      (loadDatabase st fs filePath originalName newConn tablesResult now).result =
        Except.ok info →
      (loadDatabase st fs filePath originalName newConn tablesResult now).state.currentDbInfo =
        some info ∧
      getCurrentDatabaseInfo
        (loadDatabase st fs filePath originalName newConn tablesResult now).state =
        Except.ok info ∧
      info.path = filePath ∧ info.name = originalName) := by
  cases tablesResult with
  | error e =>
      refine ⟨?_, ?_, ?_⟩ <;> simp [loadDatabase, closeCurrentDatabase, h]
  | ok tables =>
      cases hstat : statSyncSize fs filePath with
      | none =>
          refine ⟨?_, ?_, ?_⟩ <;>
            simp [loadDatabase, closeCurrentDatabase, h, hstat]
      | some size =>
          refine ⟨by simp [loadDatabase, closeCurrentDatabase, h, hstat],
            by simp [loadDatabase, closeCurrentDatabase, h, hstat], ?_⟩
          intro info hinfo
          simp only [loadDatabase, closeCurrentDatabase, h, hstat] at hinfo
          simp only [Except.ok.injEq] at hinfo
          subst hinfo
          refine ⟨by simp [loadDatabase, closeCurrentDatabase, h, hstat], ?_, rfl, rfl⟩
          simp [loadDatabase, closeCurrentDatabase, h, hstat, getCurrentDatabaseInfo]

/-- Witness for C2: replacing an open connection with a second file. -/
theorem open_replaces_existing_connection_witness :
    (loadDatabase ⟨some 5, some infoEx⟩ [("f2.db", 10)] "f2.db" "orig2.db" 6
        (Except.ok ["t2"]) 3).events =
      [ConnEvent.disposed 5, ConnEvent.opened 6] ∧
    (loadDatabase ⟨some 5, some infoEx⟩ [("f2.db", 10)] "f2.db" "orig2.db" 6
        (Except.ok ["t2"]) 3).state.currentDbInfo =
      some ⟨"f2.db", "orig2.db", 10, ["t2"], 3⟩ ∧
    getCurrentDatabaseInfo
      (loadDatabase ⟨some 5, some infoEx⟩ [("f2.db", 10)] "f2.db" "orig2.db" 6
        (Except.ok ["t2"]) 3).state =
      Except.ok ⟨"f2.db", "orig2.db", 10, ["t2"], 3⟩ :=
  have h := open_replaces_existing_connection ⟨some 5, some infoEx⟩ 5 rfl
    [("f2.db", 10)] "f2.db" "orig2.db" 6 (Except.ok ["t2"]) 3
  have h3 := h.2.2 ⟨"f2.db", "orig2.db", 10, ["t2"], 3⟩ (by decide)
  ⟨h.1, h3.1, h3.2.1⟩

/-- C10: when `loadDatabase` fails after the connection attempt and a
file exists at `filePath`, the file is unlinked from disk and the error
is re-raised. -/
theorem failed_load_removes_file (st : ManagerState) (fs : FS)
    (filePath originalName : String) (newConn : Nat) (e : JsError) (now : Nat)
    (hex : existsSync fs filePath = true) :
    (loadDatabase st fs filePath originalName newConn (Except.error e) now).result =
      Except.error e ∧
    existsSync
      (loadDatabase st fs filePath originalName newConn (Except.error e) now).fs
      filePath = false := by
  constructor
  · cases h : st.currentDb <;> simp [loadDatabase, closeCurrentDatabase, h]
  · cases h : st.currentDb <;>
      simp [loadDatabase, closeCurrentDatabase, h, hex, existsSync_unlink]

/-- Witness for C10: a failed open of an existing uploaded file. -/
theorem failed_load_removes_file_witness :
    (loadDatabase initialManager [("up.db", 4)] "up.db" "orig.db" 1
        (Except.error ⟨true, "SQLITE_NOTADB: file is not a database"⟩) 0).result =
      Except.error ⟨true, "SQLITE_NOTADB: file is not a database"⟩ ∧
    existsSync
      (loadDatabase initialManager [("up.db", 4)] "up.db" "orig.db" 1
        (Except.error ⟨true, "SQLITE_NOTADB: file is not a database"⟩) 0).fs
      "up.db" = false :=
  failed_load_removes_file initialManager [("up.db", 4)] "up.db" "orig.db" 1
    ⟨true, "SQLITE_NOTADB: file is not a database"⟩ 0 (by decide)

/-- C9 (failing input): a `loadDatabase` call whose table-listing query
fails leaves the pool handle assigned while the cached summary is absent,
so `isConnected()` answers true while `getCurrentDatabaseInfo()` throws —
the handle and the summary are not both present or both absent. -/
theorem failed_load_leaves_dangling_handle :
    isConnected
      (loadDatabase initialManager [("up.db", 4)] "up.db" "orig.db" 1
        (Except.error ⟨true, "SQLITE_NOTADB: file is not a database"⟩) 0).state =
      true ∧
    (loadDatabase initialManager [("up.db", 4)] "up.db" "orig.db" 1
        (Except.error ⟨true, "SQLITE_NOTADB: file is not a database"⟩) 0).state.currentDbInfo =
      none ∧
    getCurrentDatabaseInfo
      (loadDatabase initialManager [("up.db", 4)] "up.db" "orig.db" 1
        (Except.error ⟨true, "SQLITE_NOTADB: file is not a database"⟩) 0).state =
      Except.error noConnectionError := by
  decide

/-- C1 (amended): for every non-empty SQL string executed through the
query route with a connection open (handle and cached summary both
present), exactly one history entry is appended whether the execution
succeeds or fails, with `success` matching the outcome; a failed query
records `success = false` and an `error_message` equal to the thrown
message (or "Unknown error" for a non-Error value), and the error reaches
the caller as the 500 response only together with the recorded timed
entry.  An empty-string `sql` is rejected by the falsy guard with a 400
response and nothing recorded. -/
theorem query_route_appends_one_entry (st : ManagerState) (c : Nat)
    (info : DatabaseInfo) (hdb : st.currentDb = some c)
    (hinfo : st.currentDbInfo = some info) (history : List QueryHistoryEntry)
    (sqlQuery : String) (hsql : sqlQuery ≠ "")
    (engine : Except JsError EngineResult) (dur : Nat) :
    (runQueryRoute st history (some "") engine dur) =
      (QueryResponse.badRequest "No SQL query provided", history) ∧
    (runQueryRoute st history (some sqlQuery) engine dur).2.length =
      history.length + 1 ∧
    (∀ r, engine = Except.ok r →
      (runQueryRoute st history (some sqlQuery) engine dur).2 =
        history ++ [⟨sqlQuery, info.name, info.path, dur, true, none⟩]) ∧
    (∀ e, engine = Except.error e →
      (runQueryRoute st history (some sqlQuery) engine dur).2 =
        history ++ [⟨sqlQuery, info.name, info.path, dur, false,
          some (jsErrorMessage e)⟩] ∧
      (runQueryRoute st history (some sqlQuery) engine dur).1 =
        QueryResponse.serverError "Failed to execute query" (jsErrorMessage e)) := by
  have hconn : isConnected st = true := by simp [isConnected, hdb]
  refine ⟨by simp [runQueryRoute, hconn], ?_⟩
  cases engine with
  | ok r =>
      refine ⟨?_, ?_, ?_⟩
      · by_cases hsel : isSelectClassification sqlQuery <;>
          simp [runQueryRoute, hconn, hsql, getCurrentDatabaseInfo, hinfo,
            executeQuery, hdb, addToHistory, hsel]
      · intro r' _
        by_cases hsel : isSelectClassification sqlQuery <;>
          simp [runQueryRoute, hconn, hsql, getCurrentDatabaseInfo, hinfo,
            executeQuery, hdb, addToHistory, hsel]
      · intro e he
        cases he
  | error e =>
      refine ⟨?_, ?_, ?_⟩
      · simp [runQueryRoute, hconn, hsql, getCurrentDatabaseInfo, hinfo,
          executeQuery, hdb, addToHistory]
      · intro r' hr
        cases hr
      · intro e' he
        cases he
        constructor <;>
          simp [runQueryRoute, hconn, hsql, getCurrentDatabaseInfo, hinfo,
            executeQuery, hdb, addToHistory]

/-- Witness for C1 at a concrete open state: a rejected empty sql, one
successful select and one failed update. -/
theorem query_route_appends_one_entry_witness :
    (runQueryRoute ⟨some 1, some infoEx⟩ [] (some "")
      (Except.ok (⟨[], 0, 0⟩ : EngineResult)) 2) =
      (QueryResponse.badRequest "No SQL query provided", []) ∧
    (runQueryRoute ⟨some 1, some infoEx⟩ [] (some "select 1")
      (Except.ok (⟨[], 0, 0⟩ : EngineResult)) 2).2.length = 1 ∧
    (runQueryRoute ⟨some 1, some infoEx⟩ [] (some "select 1")
      (Except.ok (⟨[], 0, 0⟩ : EngineResult)) 2).2 =
      [⟨"select 1", infoEx.name, infoEx.path, 2, true, none⟩] ∧
    (runQueryRoute ⟨some 1, some infoEx⟩ [] (some "update t set x = 2")
      (Except.error ⟨true, "no such table: t"⟩) 4).2 =
      [⟨"update t set x = 2", infoEx.name, infoEx.path, 4, false,
        some (jsErrorMessage ⟨true, "no such table: t"⟩)⟩] :=
  have hok := query_route_appends_one_entry ⟨some 1, some infoEx⟩ 1 infoEx rfl rfl
    [] "select 1" (by decide) (Except.ok (⟨[], 0, 0⟩ : EngineResult)) 2
  have herr := query_route_appends_one_entry ⟨some 1, some infoEx⟩ 1 infoEx rfl rfl
    [] "update t set x = 2" (by decide)
    (Except.error ⟨true, "no such table: t"⟩) 4
  ⟨hok.1, hok.2.1, hok.2.2.1 (⟨[], 0, 0⟩ : EngineResult) rfl,
    (herr.2.2.2 ⟨true, "no such table: t"⟩ rfl).1⟩

/-- C1 (counterexample): a query that fails with an `Error` whose own
message is the empty string is recorded with `success = false` but with
an empty `error_message`, so the recorded message is not non-empty. -/
theorem query_route_error_message_can_be_empty :
    (runQueryRoute ⟨some 1, some infoEx⟩ [] (some "update t set x = 2")
      (Except.error ⟨true, ""⟩) 5).2 =
      [⟨"update t set x = 2", "ex.db", "storage/databases/1-ex.db", 5, false,
        some ""⟩] ∧
    (∀ e ∈ (runQueryRoute ⟨some 1, some infoEx⟩ [] (some "update t set x = 2")
      (Except.error ⟨true, ""⟩) 5).2,
      e.success = false ∧ e.error_message = some "" ∧
      ∀ m, e.error_message = some m → m.length = 0) := by
  decide

/-- C5 (failing input): a write statement executed through the query path
answers with `changes` bound to the raw row array returned by the pool
(not the change count the engine reported) and with `lastInsertId`
undefined (the `lastInsertRowid` property is never set by
`executeQuery`), even though the engine reported one change and last
inserted row id 7. -/
theorem write_query_returns_row_array_and_no_last_insert_id :
    (runQueryRoute ⟨some 1, some infoEx⟩ [] (some "insert into t values (1)")
      (Except.ok (⟨[], 1, 7⟩ : EngineResult)) 2).1 =
      QueryResponse.writeResults (some []) none ∧
    (⟨[], 1, 7⟩ : EngineResult).changes = 1 ∧
    (⟨[], 1, 7⟩ : EngineResult).lastInsertRowid = 7 := by
  decide

/-- C3 (counterexample): registering a metadata record whose `path`
already exists does not update the existing row — the insert violates the
UNIQUE constraint, the transaction rolls back, the table is unchanged
(size stays 100, table_count stays 2), and the call fails. -/
theorem create_does_not_update_existing_path :
    (DatabaseMetadataModel_create ⟨[metaRowEx], 2⟩
      ⟨"new.db", "storage/databases/100-old.db", 999, 5, false, some "fresh",
        none, none⟩ 9).1 = ⟨[metaRowEx], 2⟩ ∧
    (DatabaseMetadataModel_create ⟨[metaRowEx], 2⟩
      ⟨"new.db", "storage/databases/100-old.db", 999, 5, false, some "fresh",
        none, none⟩ 9).2 =
      Except.error ⟨true, "UNIQUE constraint failed: database_metadata.path"⟩ ∧
    (∀ row ∈ (DatabaseMetadataModel_create ⟨[metaRowEx], 2⟩
      ⟨"new.db", "storage/databases/100-old.db", 999, 5, false, some "fresh",
        none, none⟩ 9).1.rows,
      row.size = 100 ∧ row.table_count = 2) := by
  decide

/-- C3 (amended): registering an uploaded file's metadata record is a
transactional insert keyed by the unique `path`: when no record with that
path exists, exactly the supplied row is appended and returned; when one
exists, the call fails and the table is left unchanged — in either case
no partially written row is ever visible. -/
theorem create_transactional_insert (db : MetaDb) (m : MetadataInput) (now : Nat) :
    (pathTaken db m.path = false →
      (DatabaseMetadataModel_create db m now).2 =
        Except.ok ⟨db.nextId, m.name, m.path, m.size, m.table_count, now,
          m.is_favorite, m.notes, m.schema_cache, m.schema_updated_at, now⟩ ∧
      (DatabaseMetadataModel_create db m now).1.rows =
        db.rows ++ [⟨db.nextId, m.name, m.path, m.size, m.table_count, now,
          m.is_favorite, m.notes, m.schema_cache, m.schema_updated_at, now⟩]) ∧
    (pathTaken db m.path = true →
      (DatabaseMetadataModel_create db m now).1 = db ∧
      (DatabaseMetadataModel_create db m now).2 =
        Except.error ⟨true, "UNIQUE constraint failed: database_metadata.path"⟩) := by
  constructor
  · intro h
    constructor <;> simp [DatabaseMetadataModel_create, h]
  · intro h
    constructor <;> simp [DatabaseMetadataModel_create, h]

/-- Witness for C3: a fresh-path insert and a conflicting-path failure at
concrete inputs. -/
theorem create_transactional_insert_witness :
    (DatabaseMetadataModel_create ⟨[], 1⟩
      ⟨"a.db", "storage/databases/7-a.db", 20, 3, false, none, none, none⟩ 4).2 =
      Except.ok ⟨1, "a.db", "storage/databases/7-a.db", 20, 3, 4, false, none,
        none, none, 4⟩ ∧
    (DatabaseMetadataModel_create ⟨[metaRowEx], 2⟩
      ⟨"new.db", "storage/databases/100-old.db", 999, 5, false, some "fresh",
        none, none⟩ 9).1 = ⟨[metaRowEx], 2⟩ :=
  ⟨(create_transactional_insert ⟨[], 1⟩
      ⟨"a.db", "storage/databases/7-a.db", 20, 3, false, none, none, none⟩ 4).1
      (by decide) |>.1,
    (create_transactional_insert ⟨[metaRowEx], 2⟩
      ⟨"new.db", "storage/databases/100-old.db", 999, 5, false, some "fresh",
        none, none⟩ 9).2 (by decide) |>.1⟩

/-- C4 (counterexample): an upload named `data.txt` — a filename without
the recognized database extension — whose bytes are a valid database is
not rejected: the server pipeline writes the bytes to storage and
registers the record, answering success. -/
theorem upload_without_db_extension_is_accepted :
    dbUploadAccepts "data.txt" = false ∧
    (uploadRoute ⟨[], 1⟩ [] (some ⟨"data.txt", 55⟩) 111 (Except.ok 0) 7).response =
      UploadResponse.ok ⟨1, "data.txt", "storage/databases/111-data.txt", 55, 0, 7,
        false, some "Uploaded on 7", none, none, 7⟩ ∧
    existsSync (uploadRoute ⟨[], 1⟩ [] (some ⟨"data.txt", 55⟩) 111
      (Except.ok 0) 7).fs "storage/databases/111-data.txt" = true := by
  decide

/-- C4 (amended): the server-side upload pipeline never consults the
filename extension: content that fails to open as a database is rejected
only after the bytes have been written to storage (the written file
remains, truncated to zero bytes, rather than removed), an upload whose
content opens as a database is accepted whatever its filename, and the
only `.db`-extension check lives in the browser upload component, which
refuses to send the request. -/
theorem upload_pipeline_has_no_extension_check (metaDb : MetaDb) (fs : FS)
    (file : UploadFile) (timestamp : Nat) (openCount : Except JsError Nat)
    (now : Nat) :
    (∀ e, openCount = Except.error e →
      (uploadRoute metaDb fs (some file) timestamp openCount now).response =
        UploadResponse.failed (jsErrorMessage e) ∧
      existsSync (uploadRoute metaDb fs (some file) timestamp openCount now).fs
        (uploadStoragePath timestamp file.name) = true ∧
      statSyncSize (uploadRoute metaDb fs (some file) timestamp openCount now).fs
        (uploadStoragePath timestamp file.name) = some 0) ∧
    (∀ n, openCount = Except.ok n →
      pathTaken metaDb (uploadStoragePath timestamp file.name) = false →
      (uploadRoute metaDb fs (some file) timestamp openCount now).response =
        UploadResponse.ok ⟨metaDb.nextId, file.name,
          uploadStoragePath timestamp file.name, file.size, n, now, false,
          some ("Uploaded on " ++ toString now), none, none, now⟩) ∧
    (∀ name : String,
      onDrop (some name) = DropAction.uploadFile ↔ dbUploadAccepts name = true) := by
  refine ⟨?_, ?_, ?_⟩
  · intro e he
    subst he
    refine ⟨rfl, ?_, ?_⟩ <;>
      simp [uploadRoute, existsSync_writeFile, statSyncSize_writeFile]
  · intro n hn hpath
    subst hn
    simp [uploadRoute, DatabaseMetadataModel_create, hpath]
  · intro name
    by_cases h : dbUploadAccepts name <;> simp [onDrop, h]

/-- Witness for C4 (amended): a garbage `.db` upload is rejected with its
truncated bytes still in storage, and a valid upload on a fresh path is
registered. -/
theorem upload_pipeline_has_no_extension_check_witness :
    (uploadRoute ⟨[], 1⟩ [] (some ⟨"bad.db", 9⟩) 50
      (Except.error ⟨true, "file is not a database"⟩) 7).response =
      UploadResponse.failed (jsErrorMessage ⟨true, "file is not a database"⟩) ∧
    statSyncSize (uploadRoute ⟨[], 1⟩ [] (some ⟨"bad.db", 9⟩) 50
      (Except.error ⟨true, "file is not a database"⟩) 7).fs
      (uploadStoragePath 50 "bad.db") = some 0 ∧
    (uploadRoute ⟨[], 1⟩ [] (some ⟨"ok.db", 21⟩) 60 (Except.ok 2) 8).response =
      UploadResponse.ok ⟨1, "ok.db", uploadStoragePath 60 "ok.db", 21, 2, 8,
        false, some ("Uploaded on " ++ toString 8), none, none, 8⟩ :=
  have hbad := upload_pipeline_has_no_extension_check ⟨[], 1⟩ [] ⟨"bad.db", 9⟩ 50
    (Except.error ⟨true, "file is not a database"⟩) 7
  have hok := upload_pipeline_has_no_extension_check ⟨[], 1⟩ [] ⟨"ok.db", 21⟩ 60
    (Except.ok 2) 8
  ⟨(hbad.1 ⟨true, "file is not a database"⟩ rfl).1,
    (hbad.1 ⟨true, "file is not a database"⟩ rfl).2.2,
    hok.2.1 2 rfl (by decide)⟩

/-- One `setPreference` call leaves exactly one row holding the key,
provided the UNIQUE constraint held before (at most one row per key). -/
theorem countP_setPreference (db : PrefDb) (k v : String) (t : Nat)
    (huniq : db.rows.countP (fun r => r.key == k) ≤ 1) :
    (setPreference db k v t).rows.countP (fun r => r.key == k) = 1 := by
  by_cases h : db.rows.any (fun r => r.key == k)
  · have hpos : 0 < db.rows.countP (fun r => r.key == k) := by
      rw [List.countP_pos_iff]
      simpa using List.any_eq_true.mp h
    simp only [setPreference, h, if_true]
    rw [countP_key_map_prefUpdate]
    omega
  · simp only [Bool.not_eq_true] at h
    have hz : db.rows.countP (fun r => r.key == k) = 0 := by
      rw [List.countP_eq_zero]
      intro a ha
      have := List.any_eq_false.mp h a ha
      simpa using this
    simp [setPreference, h, List.countP_append, hz]

theorem any_key_setPreference (db : PrefDb) (k v : String) (t : Nat)
    (huniq : db.rows.countP (fun r => r.key == k) ≤ 1) :
    (setPreference db k v t).rows.any (fun r => r.key == k) = true := by
  have h1 := countP_setPreference db k v t huniq
  rw [List.any_eq_true]
  have hpos : 0 < (setPreference db k v t).rows.countP (fun r => r.key == k) := by
    omega
  exact List.countP_pos_iff.mp hpos

/-- C8: writing the same Preference key twice is an upsert on the key
set: after the second write exactly one row exists for the key, it holds
the latest value and timestamp, and the second write adds no row. -/
theorem setPreference_twice_single_row (db : PrefDb) (k v₁ v₂ : String)
    (t₁ t₂ : Nat) (huniq : db.rows.countP (fun r => r.key == k) ≤ 1) :
    (setPreference (setPreference db k v₁ t₁) k v₂ t₂).rows.countP
      (fun r => r.key == k) = 1 ∧
    (∀ r ∈ (setPreference (setPreference db k v₁ t₁) k v₂ t₂).rows,
      r.key = k → r.value = v₂ ∧ r.updated_at = t₂) ∧
    (setPreference (setPreference db k v₁ t₁) k v₂ t₂).rows.length =
      (setPreference db k v₁ t₁).rows.length := by
  have h₁ := countP_setPreference db k v₁ t₁ huniq
  have hany := any_key_setPreference db k v₁ t₁ huniq
  set db₁ := setPreference db k v₁ t₁ with hdb₁
  have hrows : (setPreference db₁ k v₂ t₂).rows = db₁.rows.map (prefUpdate k v₂ t₂) := by
    simp [setPreference, hany]
  refine ⟨?_, ?_, ?_⟩
  · rw [hrows, countP_key_map_prefUpdate]
    exact h₁
  · intro r hr hk
    rw [hrows] at hr
    exact mem_map_prefUpdate_value db₁.rows k v₂ t₂ r hr hk
  · rw [hrows, List.length_map]

/-- Witness for C8: two writes of the `theme` key starting from an empty
preferences table. -/
theorem setPreference_twice_single_row_witness :
    (setPreference (setPreference ⟨[], 1⟩ "theme" "dark" 1) "theme" "light" 2).rows.countP
      (fun r => r.key == "theme") = 1 ∧
    ((⟨1, "theme", "light", 2⟩ : PrefRow).value = "light" ∧
      (⟨1, "theme", "light", 2⟩ : PrefRow).updated_at = 2) ∧
    (setPreference (setPreference ⟨[], 1⟩ "theme" "dark" 1) "theme" "light" 2).rows.length =
      (setPreference ⟨[], 1⟩ "theme" "dark" 1).rows.length :=
  have h := setPreference_twice_single_row ⟨[], 1⟩ "theme" "dark" "light" 1 2
    (by decide)
  ⟨h.1, h.2.1 ⟨1, "theme", "light", 2⟩ (by decide) rfl, h.2.2⟩
